import Mathlib

/-!
Shallow embedding of the reward-notification bot (src/bot.js, with the
near-duplicate variant src/unnamed/part_000).

The module-level mutable state of bot.js (lines 45-47) consists of exactly two
variables: `lastTotalDistributed` and `lastProcessedBlock`.  The periodic scan
task `monitorRewardDistributions` (bot.js lines 66-117) reads the chain height,
queries Transfer events emitted by the contract in the inclusive block range
`[lastProcessedBlock, currentBlock]`, formats and sends one Telegram message per
event, and finally sets `lastProcessedBlock = currentBlock`.  The stats task
`sendStatsUpdate` (bot.js lines 118-136) reads two contract views via
`Promise.all` and sends one message when both succeed.

External effects (RPC results, send outcomes) are passed in explicitly as
oracle data; JavaScript exceptions are modelled with `Except`/flags, and the
try/catch structure of the source is mirrored in the control flow.  Number
formatting (`parseFloat(ethers.formatUnits(v, 6)).toFixed(2)` and the
`toFixed(6)` variant) is modelled exactly on natural numbers: every concrete
value the development evaluates is exactly representable as a binary double,
so the float detour of the source is value-preserving there.
-/

/-- bot.js line 11: the reward contract address; the Transfer filter
`atm.filters.Transfer(config.CONTRACT_ADDRESS)` restricts to events whose
indexed `from` equals this address. -/
def CONTRACT_ADDRESS : String := "0x88807fDabF60fdDd7bd8fB4987dC5A63cbd31f6a"

/-- A raw Transfer event as delivered by `atm.queryFilter`
(`event Transfer(address indexed from, address indexed to, uint256 value)`,
bot.js line 35).  `fromAddr`/`toAddr` model `event.args.from`/`event.args.to`. -/
structure TransferEvent where
  fromAddr : String
  toAddr : String
  value : Nat
  blockNumber : Nat
  transactionHash : String
deriving DecidableEq, Repr

/-- bot.js lines 46-47: the module state mutated by the tasks. -/
structure BotState where
  lastTotalDistributed : Nat
  lastProcessedBlock : Nat
deriving DecidableEq, Repr

/-- One scheduled invocation's external outcomes: the result of
`provider.getBlockNumber()` (line 71; `Except.error` models a thrown RPC
error), whether `atm.queryFilter` (lines 75-79) throws, and the outcome of
`bot.telegram.sendAnimation` for the i-th event of the cycle
(line 56; `sendOk i = false` models a send failure). -/
structure ScanCycle where
  blockNumberResult : Except Unit Nat
  fetchFails : Bool
  sendOk : Nat → Bool

/-- bot.js lines 75-79: `atm.queryFilter(atm.filters.Transfer(CONTRACT_ADDRESS),
lastProcessedBlock, currentBlock)` — all chain events whose `from` is the
contract and whose block lies in the inclusive range. -/
def queryFilterTransfer (chain : List TransferEvent) (fromBlock toBlock : Nat) :
    List TransferEvent :=
  chain.filter fun e =>
    e.fromAddr == CONTRACT_ADDRESS &&
    decide (fromBlock ≤ e.blockNumber) && decide (e.blockNumber ≤ toBlock)

/-- Left-pad a numeral with zeros to `width` digits. -/
def padZeros (width : Nat) (n : Nat) : String :=
  let s := toString n
  String.mk (List.replicate (width - s.length) '0') ++ s

/-- bot.js lines 88-90: `parseFloat(ethers.formatUnits(rawAmount, 6)).toFixed(2)`.
Modelled exactly on naturals: the value `raw / 10^6` rounded to cents with
ties away from zero (for nonnegative doubles `toFixed` rounds to nearest,
ties resolved by the exact binary value; every value this development
evaluates is an exact multiple of a representable power of two, where the
two agree). -/
def displayAmount (raw : Nat) : String :=
  let cents := (raw + 5000) / 10000
  toString (cents / 100) ++ "." ++ padZeros 2 (cents % 100)

/-- bot.js line 129: `parseFloat(ethers.formatUnits(b, 6)).toFixed(6)` —
exact, since dividing by `10^6` and re-printing six fractional digits
round-trips the integer. -/
def displayAmount6 (raw : Nat) : String :=
  toString (raw / 1000000) ++ "." ++ padZeros 6 (raw % 1000000)

/-- The semantic payload of one reward message (bot.js lines 101-109): the
dedup-relevant EventKey (`event.transactionHash`), the recipient, the
formatted amount, and whether the Telegram send succeeded.  `sendWithGif`
(bot.js lines 53-64) catches its own send error and only logs it, so
`delivered = false` never interrupts the caller. -/
structure Notification where
  key : String
  toAddr : String
  amountDisplay : String
  delivered : Bool
deriving DecidableEq, Repr

/-- bot.js lines 83-110: the `for (const event of events)` loop; one message
per fetched event, in order, sent via `sendWithGif` (which never throws). -/
def notifyEvents (sendOk : Nat → Bool) : Nat → List TransferEvent → List Notification
  | _, [] => []
  | i, e :: rest =>
    { key := e.transactionHash
      toAddr := e.toAddr
      amountDisplay := displayAmount e.value
      delivered := sendOk i } :: notifyEvents sendOk (i + 1) rest

/-- bot.js line 74 and lines 77-78: the queried block range.  The guard is
`currentBlock > lastProcessedBlock`; inside it the range is
`[lastProcessedBlock, currentBlock]`, lower bound exactly the cursor
(no lookback clamp appears anywhere in the source). -/
def scanWindow (st : BotState) (currentBlock : Nat) : Option (Nat × Nat) :=
  if st.lastProcessedBlock < currentBlock then
    some (st.lastProcessedBlock, currentBlock)
  else
    none

/-- bot.js lines 66-117: one invocation of the reward scan.  A thrown
`getBlockNumber` or `queryFilter` lands in the catch at lines 114-116,
which only logs: the state is left unchanged.  On the success path the loop
notifies every fetched event and line 112 commits
`lastProcessedBlock = currentBlock`. -/
def monitorRewardDistributions (chain : List TransferEvent) (cyc : ScanCycle)
    (st : BotState) : BotState × List Notification :=
  match cyc.blockNumberResult with
  | .error _ => (st, [])
  | .ok currentBlock =>
    match scanWindow st currentBlock with
    | none => (st, [])
    | some (a, b) =>
      if cyc.fetchFails then (st, [])
      else
        let events := queryFilterTransfer chain a b
        ({ st with lastProcessedBlock := currentBlock }, notifyEvents cyc.sendOk 0 events)

/-- A sequence of scheduled scan invocations, threading the module state and
concatenating the emitted notifications in order. -/
def runCycles (chain : List TransferEvent) (st : BotState) :
    List ScanCycle → BotState × List Notification
  | [] => (st, [])
  | cyc :: rest =>
    let r := monitorRewardDistributions chain cyc st
    let r' := runCycles chain r.1 rest
    (r'.1, r.2 ++ r'.2)

/-- The inclusive block ranges actually queried along a run: one per cycle
that passes the height guard and whose fetch does not throw. -/
def executedWindows (st : BotState) : List ScanCycle → List (Nat × Nat)
  | [] => []
  | cyc :: rest =>
    match cyc.blockNumberResult with
    | .error _ => executedWindows st rest
    | .ok currentBlock =>
      match scanWindow st currentBlock with
      | none => executedWindows st rest
      | some w =>
        if cyc.fetchFails then executedWindows st rest
        else w :: executedWindows { st with lastProcessedBlock := currentBlock } rest

/-- Number of notifications in `ns` whose EventKey is `h`. -/
def notifCountFor (h : String) (ns : List Notification) : Nat :=
  (ns.filter fun n => n.key == h).length

/-- Membership of a block in an inclusive window. -/
def inWindow (w : Nat × Nat) (b : Nat) : Bool :=
  decide (w.1 ≤ b) && decide (b ≤ w.2)

/-- The two fields of the stats message (bot.js lines 126-130). -/
structure StatsMessage where
  totalDistributedDisplay : String
  contractBalanceDisplay : String
deriving DecidableEq, Repr

/-- bot.js lines 118-136: the stats task.  `Promise.all` (lines 121-124)
rejects as soon as either view call (`atm.totalDistributed()` or
`usdc.balanceOf(...)`) rejects; the rejection lands in the catch at lines
133-135, which only logs, so no message at all is composed or sent in that
case.  Only when both views succeed is the single two-field message built
and handed to `sendWithGif`. -/
def sendStatsUpdate (totalDistributedResult contractBalanceResult : Except Unit Nat) :
    Option StatsMessage :=
  match totalDistributedResult, contractBalanceResult with
  | .ok d, .ok b =>
    some { totalDistributedDisplay := displayAmount d
           contractBalanceDisplay := displayAmount6 b }
  | _, _ => none

/-- A scheduled task instance: either a reward scan (bot.js line 158) or a
stats publication (line 159), with its external outcomes. -/
inductive BotTask where
  | scan : ScanCycle → BotTask
  | stats : Except Unit Nat → Except Unit Nat → BotTask

/-- Whether a task is a reward scan. -/
def BotTask.isScan : BotTask → Bool
  | .scan _ => true
  | .stats _ _ => false

/-- An arbitrary interleaving of the two scheduled tasks, as produced by the
two independent timers: threads the module state through scan tasks;
`sendStatsUpdate` touches no module variable in the source, so the stats arm
passes the state through. -/
def runTasks (chain : List TransferEvent) (st : BotState) :
    List BotTask → BotState × List Notification × List StatsMessage
  | [] => (st, [], [])
  | .scan cyc :: rest =>
    let r := monitorRewardDistributions chain cyc st
    let r' := runTasks chain r.1 rest
    (r'.1, r.2 ++ r'.2.1, r'.2.2)
  | .stats t b :: rest =>
    let m := sendStatsUpdate t b
    let r := runTasks chain st rest
    (r.1, r.2.1, m.toList ++ r.2.2)

example : displayAmount 500000 = "0.50" := by decide
example : displayAmount 0 = "0.00" := by decide
example : displayAmount 1500000000000 = "1500000.00" := by decide
example : displayAmount6 1234567 = "1.234567" := by decide


/-! ### Helper lemmas -/

theorem notifyEvents_length (sendOk : Nat → Bool) (i : Nat) (evs : List TransferEvent) :
    (notifyEvents sendOk i evs).length = evs.length := by
  induction evs generalizing i with
  | nil => rfl
  | cons e rest ih => simp [notifyEvents, ih]

theorem notifCountFor_append (h : String) (a b : List Notification) :
    notifCountFor h (a ++ b) = notifCountFor h a + notifCountFor h b := by
  simp [notifCountFor, List.filter_append]

theorem notifyEvents_count (sendOk : Nat → Bool) (i : Nat) (h : String)
    (evs : List TransferEvent) :
    notifCountFor h (notifyEvents sendOk i evs) =
      (evs.filter fun x => x.transactionHash == h).length := by
  induction evs generalizing i with
  | nil => rfl
  | cons e rest ih =>
    simp only [notifyEvents, notifCountFor, List.filter]
    cases hkey : (e.transactionHash == h) with
    | false => simpa [notifCountFor, hkey] using ih (i + 1)
    | true => simpa [notifCountFor, hkey] using ih (i + 1)

theorem queryFilterTransfer_key_count (chain : List TransferEvent) (e : TransferEvent)
    (a b : Nat)
    (huniq : (chain.filter fun x => x.transactionHash == e.transactionHash) = [e])
    (hfrom : e.fromAddr = CONTRACT_ADDRESS) :
    ((queryFilterTransfer chain a b).filter
        fun x => x.transactionHash == e.transactionHash).length =
      if inWindow (a, b) e.blockNumber then 1 else 0 := by
  unfold queryFilterTransfer
  rw [List.filter_filter, List.filter_congr (fun x _ => Bool.and_comm _ _),
    ← List.filter_filter, huniq]
  by_cases h1 : a ≤ e.blockNumber <;> by_cases h2 : e.blockNumber ≤ b <;>
    simp [List.filter, hfrom, inWindow, h1, h2]

theorem notifyEvents_mem (sendOk : Nat → Bool) (i : Nat) (evs : List TransferEvent)
    (e : TransferEvent) (he : e ∈ evs) :
    ∃ n ∈ notifyEvents sendOk i evs, n.key = e.transactionHash ∧
      n.toAddr = e.toAddr ∧ n.amountDisplay = displayAmount e.value := by
  induction evs generalizing i with
  | nil => cases he
  | cons x rest ih =>
    rcases List.mem_cons.mp he with rfl | he
    · exact ⟨_, List.mem_cons_self _ _, rfl, rfl, rfl⟩
    · obtain ⟨n, hn, hprops⟩ := ih (i + 1) he
      exact ⟨n, List.mem_cons_of_mem _ hn, hprops⟩

theorem monitor_cursor (chain : List TransferEvent) (cyc : ScanCycle) (st : BotState) :
    (monitorRewardDistributions chain cyc st).1.lastProcessedBlock =
      match cyc.blockNumberResult, cyc.fetchFails with
      | .ok c, false => max st.lastProcessedBlock c
      | _, _ => st.lastProcessedBlock := by
  obtain ⟨bn, ff, so⟩ := cyc
  cases bn with
  | error u => rfl
  | ok c =>
    simp only [monitorRewardDistributions, scanWindow]
    by_cases hc : st.lastProcessedBlock < c
    · cases ff <;> simp [hc, Nat.max_eq_right (Nat.le_of_lt hc)]
    · cases ff <;> simp [hc, Nat.max_eq_left (Nat.le_of_not_lt hc)]

theorem runCycles_cursor_mono (chain : List TransferEvent) (cycles : List ScanCycle)
    (st : BotState) :
    st.lastProcessedBlock ≤ (runCycles chain st cycles).1.lastProcessedBlock := by
  induction cycles generalizing st with
  | nil => exact Nat.le_refl _
  | cons cyc rest ih =>
    simp only [runCycles]
    refine Nat.le_trans ?_ (ih _)
    rw [monitor_cursor]
    rcases cyc.blockNumberResult with u | c
    · exact Nat.le_refl _
    · cases cyc.fetchFails
      · exact Nat.le_max_left _ _
      · exact Nat.le_refl _

/-- Claim C1, amended.  The claim asserts that across overlapping scan windows
each EventKey yields exactly one notification.  The code keeps no dedup ledger:
an event is notified once in every executed scan window containing its block,
and consecutive windows share their boundary block (the query range is
`[lastProcessedBlock, currentBlock]`, both ends inclusive), so a boundary
event is notified twice.  Amended statement: for an event whose transaction
hash occurs once on the chain and whose sender is the contract, the number of
notifications bearing its EventKey across any run of cycles equals the number
of executed windows containing its block number. -/
theorem dedup_count_eq_window_count (chain : List TransferEvent)
    (cycles : List ScanCycle) (st : BotState) (e : TransferEvent)
    (huniq : (chain.filter fun x => x.transactionHash == e.transactionHash) = [e])
    (hfrom : e.fromAddr = CONTRACT_ADDRESS) :
    notifCountFor e.transactionHash (runCycles chain st cycles).2 =
      ((executedWindows st cycles).filter fun w => inWindow w e.blockNumber).length := by
  induction cycles generalizing st with
  | nil => rfl
  | cons cyc rest ih =>
    simp only [runCycles, executedWindows]
    rw [notifCountFor_append]
    obtain ⟨bn, ff, so⟩ := cyc
    cases bn with
    | error u => simpa [monitorRewardDistributions, notifCountFor] using ih st
    | ok c =>
      by_cases hc : st.lastProcessedBlock < c
      · cases ff with
        | true =>
          simpa [monitorRewardDistributions, scanWindow, hc, notifCountFor] using ih st
        | false =>
          have hm : monitorRewardDistributions chain ⟨.ok c, false, so⟩ st =
              ({ st with lastProcessedBlock := c },
                notifyEvents so 0 (queryFilterTransfer chain st.lastProcessedBlock c)) := by
            simp [monitorRewardDistributions, scanWindow, hc]
          rw [hm]
          simp only [scanWindow, hc, if_true]
          rw [notifyEvents_count, queryFilterTransfer_key_count chain e _ _ huniq hfrom]
          cases hw : inWindow (st.lastProcessedBlock, c) e.blockNumber <;>
            simp [hw, List.filter, ih, Nat.add_comm]
      · simpa [monitorRewardDistributions, scanWindow, hc, notifCountFor] using ih st

/-- Claim C1, counterexample to the statement as written.  One chain event at
block 5 with key `0xaaa1`; the cursor starts at 3.  A first cycle at height 5
queries `[3, 5]` and notifies the event; a second cycle at height 7 queries
`[5, 7]` — overlapping the first window at block 5 — and notifies the same
EventKey again: two notifications, not exactly one. -/
theorem boundary_double_notification_cx :
    notifCountFor "0xaaa1"
      (runCycles [⟨CONTRACT_ADDRESS, "0xr1", 500000, 5, "0xaaa1"⟩] ⟨0, 3⟩
        [⟨.ok 5, false, fun _ => true⟩, ⟨.ok 7, false, fun _ => true⟩]).2 = 2 := by
  decide

/-- Witness for claim C1's amended theorem at the concrete boundary run: the
uniqueness hypothesis holds for the one-event chain, and the notification
count equals the number of executed windows containing block 5 (namely 2). -/
theorem dedup_count_eq_window_count_witness :
    (([⟨CONTRACT_ADDRESS, "0xr1", 500000, 5, "0xaaa1"⟩] :
        List TransferEvent).filter fun x => x.transactionHash == "0xaaa1") =
      [⟨CONTRACT_ADDRESS, "0xr1", 500000, 5, "0xaaa1"⟩] ∧
    notifCountFor "0xaaa1"
        (runCycles [⟨CONTRACT_ADDRESS, "0xr1", 500000, 5, "0xaaa1"⟩] ⟨0, 3⟩
          [⟨.ok 5, false, fun _ => true⟩, ⟨.ok 7, false, fun _ => true⟩]).2 =
      ((executedWindows ⟨0, 3⟩
          [⟨.ok 5, false, fun _ => true⟩, ⟨.ok 7, false, fun _ => true⟩]).filter
        fun w => inWindow w 5).length :=
  ⟨by decide,
    dedup_count_eq_window_count
      [⟨CONTRACT_ADDRESS, "0xr1", 500000, 5, "0xaaa1"⟩]
      [⟨.ok 5, false, fun _ => true⟩, ⟨.ok 7, false, fun _ => true⟩]
      ⟨0, 3⟩ ⟨CONTRACT_ADDRESS, "0xr1", 500000, 5, "0xaaa1"⟩ (by decide) rfl⟩

/-- Claim C2, confirmed.  Across every sequence of scan cycles the cursor
`lastProcessedBlock` is monotonically non-decreasing; and the net effect of a
single cycle on the cursor is: unchanged whenever `getBlockNumber` throws or
the event fetch throws, and `max lastProcessedBlock currentBlock` when the
fetch completes — so the cursor is assigned a strictly larger value
(`currentBlock`) only at the end of a cycle whose fetch succeeded with
`currentBlock` above the cursor. -/
theorem cursor_monotone_fetch_gated (chain : List TransferEvent)
    (cycles : List ScanCycle) (st : BotState) :
    st.lastProcessedBlock ≤ (runCycles chain st cycles).1.lastProcessedBlock ∧
    ∀ (cyc : ScanCycle) (s : BotState),
      (monitorRewardDistributions chain cyc s).1.lastProcessedBlock =
        match cyc.blockNumberResult, cyc.fetchFails with
        | .ok c, false => max s.lastProcessedBlock c
        | _, _ => s.lastProcessedBlock :=
  ⟨runCycles_cursor_mono chain cycles st, fun cyc s => monitor_cursor chain cyc s⟩

/-- Claim C3, counterexample to the statement as written.  With the cursor at 0
and the chain at height 2000, the code queries from block 0: the lower bound is
not `max 0 (2000 - 1000)` for the largest observed lookback constant (1000),
and 2001 blocks are queried in one cycle — more than any observed limit. -/
theorem lookback_unclamped_cx :
    scanWindow ⟨0, 0⟩ 2000 = some (0, 2000) ∧
    (0 : Nat) ≠ max 0 (2000 - 1000) ∧ 2000 - 0 + 1 > 1000 := by decide

/-- Claim C3, amended.  The claim asserts
`from = max(lastProcessedBlock, currentBlock - LOOKBACK_LIMIT)` with the
per-cycle query bounded by LOOKBACK_LIMIT.  No lookback clamp exists in the
source: whenever a cycle executes (height fetched, above the cursor, fetch not
throwing) the queried window is exactly `[lastProcessedBlock, currentBlock]`,
i.e. its lower bound is the cursor itself, so the per-cycle query spans
`currentBlock - lastProcessedBlock + 1` blocks, unbounded in the cursor lag. -/
theorem scan_lower_bound_is_cursor (chain : List TransferEvent) (cyc : ScanCycle)
    (st : BotState) (c : Nat)
    (hb : cyc.blockNumberResult = .ok c) (hf : cyc.fetchFails = false)
    (hlt : st.lastProcessedBlock < c) :
    executedWindows st [cyc] = [(st.lastProcessedBlock, c)] ∧
    (monitorRewardDistributions chain cyc st).2 =
      notifyEvents cyc.sendOk 0 (queryFilterTransfer chain st.lastProcessedBlock c) := by
  constructor <;>
    simp [executedWindows, monitorRewardDistributions, scanWindow, hb, hf, hlt]

/-- Witness for claim C3's amended theorem: a cycle at height 5 from cursor 3
queries exactly the window `[3, 5]`. -/
theorem scan_lower_bound_is_cursor_witness :
    executedWindows ⟨0, 3⟩ [⟨.ok 5, false, fun _ => true⟩] = [(3, 5)] ∧
    (monitorRewardDistributions [] ⟨.ok 5, false, fun _ => true⟩ ⟨0, 3⟩).2 =
      notifyEvents (fun _ => true) 0 (queryFilterTransfer [] 3 5) :=
  scan_lower_bound_is_cursor [] ⟨.ok 5, false, fun _ => true⟩ ⟨0, 3⟩ 5
    rfl rfl (by decide)

/-- Claim C4, counterexample to the statement as written.  A Transfer event
with raw value 0 at block 4 is fetched in the window `[3, 5]` and produces a
notification displaying `$0.00` — no validator rejects it. -/
theorem zero_value_notified_cx :
    runCycles [⟨CONTRACT_ADDRESS, "0xr4", 0, 4, "0xz4"⟩] ⟨0, 3⟩
        [⟨.ok 5, false, fun _ => true⟩] =
      (⟨0, 5⟩, [⟨"0xz4", "0xr4", "0.00", true⟩]) := by decide

/-- Claim C4, amended.  The claim asserts zero-value transfers are silently
rejected with no notification.  The source applies no value filter: every
fetched event, including one whose raw value is 0, yields a notification
(with displayed amount `0.00`) in the cycle that fetched it. -/
theorem zero_value_transfer_notified (chain : List TransferEvent) (cyc : ScanCycle)
    (st : BotState) (c : Nat) (e : TransferEvent)
    (hb : cyc.blockNumberResult = .ok c) (hf : cyc.fetchFails = false)
    (hlt : st.lastProcessedBlock < c)
    (he : e ∈ queryFilterTransfer chain st.lastProcessedBlock c)
    (hz : e.value = 0) :
    ∃ n ∈ (monitorRewardDistributions chain cyc st).2,
      n.key = e.transactionHash ∧ n.amountDisplay = "0.00" := by
  have hm : (monitorRewardDistributions chain cyc st).2 =
      notifyEvents cyc.sendOk 0 (queryFilterTransfer chain st.lastProcessedBlock c) := by
    simp [monitorRewardDistributions, scanWindow, hb, hf, hlt]
  rw [hm]
  obtain ⟨n, hn, hk, _, ha⟩ := notifyEvents_mem cyc.sendOk 0 _ e he
  refine ⟨n, hn, hk, ?_⟩
  rw [ha, hz]
  decide

/-- Witness for claim C4's amended theorem at the zero-value event of the
counterexample run. -/
theorem zero_value_transfer_notified_witness :
    ∃ n ∈ (monitorRewardDistributions [⟨CONTRACT_ADDRESS, "0xr4", 0, 4, "0xz4"⟩]
        ⟨.ok 5, false, fun _ => true⟩ ⟨0, 3⟩).2,
      n.key = "0xz4" ∧ n.amountDisplay = "0.00" :=
  zero_value_transfer_notified [⟨CONTRACT_ADDRESS, "0xr4", 0, 4, "0xz4"⟩]
    ⟨.ok 5, false, fun _ => true⟩ ⟨0, 3⟩ 5 ⟨CONTRACT_ADDRESS, "0xr4", 0, 4, "0xz4"⟩
    rfl rfl (by decide) (by decide) rfl

/-- Claim C5, counterexample to the statement as written.  An event whose raw
value is 1500000000000 (1,500,000 units at 6 decimals, far above the claimed
sanity ceiling of 1000) is not rejected: it produces a delivered notification
displaying `$1500000.00`, and the cursor advances. -/
theorem oversized_amount_notified_cx :
    runCycles [⟨CONTRACT_ADDRESS, "0xr5", 1500000000000, 4, "0xb5"⟩] ⟨0, 3⟩
        [⟨.ok 5, false, fun _ => true⟩] =
      (⟨0, 5⟩, [⟨"0xb5", "0xr5", "1500000.00", true⟩]) := by decide

/-- Claim C5, amended.  The claim asserts amounts above a fixed sanity ceiling
are rejected with no notification.  No maximum-sanity filter exists: every
fetched event, of any magnitude, yields a notification displaying its
formatted amount, and the cycle still commits the cursor to `currentBlock`. -/
theorem oversized_amount_still_notified (chain : List TransferEvent) (cyc : ScanCycle)
    (st : BotState) (c : Nat) (e : TransferEvent)
    (hb : cyc.blockNumberResult = .ok c) (hf : cyc.fetchFails = false)
    (hlt : st.lastProcessedBlock < c)
    (he : e ∈ queryFilterTransfer chain st.lastProcessedBlock c) :
    (monitorRewardDistributions chain cyc st).1.lastProcessedBlock = c ∧
    ∃ n ∈ (monitorRewardDistributions chain cyc st).2,
      n.key = e.transactionHash ∧ n.amountDisplay = displayAmount e.value := by
  have hm : monitorRewardDistributions chain cyc st =
      ({ st with lastProcessedBlock := c },
        notifyEvents cyc.sendOk 0 (queryFilterTransfer chain st.lastProcessedBlock c)) := by
    simp [monitorRewardDistributions, scanWindow, hb, hf, hlt]
  rw [hm]
  obtain ⟨n, hn, hk, _, ha⟩ := notifyEvents_mem cyc.sendOk 0 _ e he
  exact ⟨rfl, n, hn, hk, ha⟩

/-- Witness for claim C5's amended theorem at the oversized event of the
counterexample run. -/
theorem oversized_amount_still_notified_witness :
    (monitorRewardDistributions [⟨CONTRACT_ADDRESS, "0xr5", 1500000000000, 4, "0xb5"⟩]
        ⟨.ok 5, false, fun _ => true⟩ ⟨0, 3⟩).1.lastProcessedBlock = 5 ∧
    ∃ n ∈ (monitorRewardDistributions [⟨CONTRACT_ADDRESS, "0xr5", 1500000000000, 4, "0xb5"⟩]
        ⟨.ok 5, false, fun _ => true⟩ ⟨0, 3⟩).2,
      n.key = "0xb5" ∧
      n.amountDisplay = displayAmount 1500000000000 :=
  oversized_amount_still_notified [⟨CONTRACT_ADDRESS, "0xr5", 1500000000000, 4, "0xb5"⟩]
    ⟨.ok 5, false, fun _ => true⟩ ⟨0, 3⟩ 5
    ⟨CONTRACT_ADDRESS, "0xr5", 1500000000000, 4, "0xb5"⟩
    rfl rfl (by decide) (by decide)

/-- Claim C6, counterexample to the statement as written.  The claim describes
a bounded dedup ledger whose most-recently-inserted keys stay present after
compaction.  No such structure exists: after the key `0xk6` is notified in the
first cycle, the module state is just the pair (lastTotalDistributed,
lastProcessedBlock) = (0, 12) — no set of seen keys — and re-observing the key
at the window boundary notifies it a second time, so not even the most recent
key is retained anywhere. -/
theorem no_key_retention_cx :
    notifCountFor "0xk6"
        (runCycles [⟨CONTRACT_ADDRESS, "0xr6", 250000, 10, "0xk6"⟩] ⟨0, 8⟩
          [⟨.ok 10, false, fun _ => true⟩, ⟨.ok 12, false, fun _ => true⟩]).2 = 2 ∧
    (runCycles [⟨CONTRACT_ADDRESS, "0xr6", 250000, 10, "0xk6"⟩] ⟨0, 8⟩
        [⟨.ok 10, false, fun _ => true⟩, ⟨.ok 12, false, fun _ => true⟩]).1 = ⟨0, 12⟩ := by
  decide

/-- Claim C6, amended.  The source maintains no dedup ledger at all: the scan
task's whole persistent state is the two numeric module variables, of which it
only ever writes `lastProcessedBlock`, and every fetched event is notified —
the notification count of a cycle equals the fetched-event count, with no
seen-key set consulted or recorded. -/
theorem scan_state_no_ledger (chain : List TransferEvent) (cyc : ScanCycle)
    (st : BotState) :
    (monitorRewardDistributions chain cyc st).1.lastTotalDistributed =
      st.lastTotalDistributed ∧
    (monitorRewardDistributions chain cyc st).2.length =
      (match cyc.blockNumberResult with
       | .ok c =>
         if cyc.fetchFails = false ∧ st.lastProcessedBlock < c then
           (queryFilterTransfer chain st.lastProcessedBlock c).length
         else 0
       | .error _ => 0) := by
  obtain ⟨bn, ff, so⟩ := cyc
  cases bn with
  | error u => exact ⟨rfl, rfl⟩
  | ok c =>
    by_cases hc : st.lastProcessedBlock < c <;> cases ff <;>
      simp [monitorRewardDistributions, scanWindow, hc, notifyEvents_length]

/-- Claim C7, counterexample to the statement as written.  The single event's
Telegram send fails (`delivered = false`), yet the cycle is not aborted: the
cursor still advances from 3 to 5, because `sendWithGif` catches its own error
and only logs it. -/
theorem send_failure_cursor_advances_cx :
    runCycles [⟨CONTRACT_ADDRESS, "0xr7", 500000, 4, "0xf7"⟩] ⟨0, 3⟩
        [⟨.ok 5, false, fun _ => false⟩] =
      (⟨0, 5⟩, [⟨"0xf7", "0xr7", "0.50", false⟩]) := by decide

/-- Claim C7, amended.  A notifier failure during a scan cycle does not abort
the cycle and does not block the cursor: `sendWithGif` (bot.js lines 53-64)
swallows the send error, so the cycle's resulting state is independent of the
per-event send outcomes. -/
theorem cycle_state_independent_of_send (chain : List TransferEvent)
    (cyc : ScanCycle) (st : BotState) (f : Nat → Bool) :
    (monitorRewardDistributions chain ⟨cyc.blockNumberResult, cyc.fetchFails, f⟩ st).1 =
      (monitorRewardDistributions chain cyc st).1 := by
  obtain ⟨bn, ff, so⟩ := cyc
  cases bn with
  | error u => rfl
  | ok c =>
    by_cases hc : st.lastProcessedBlock < c <;> cases ff <;>
      simp [monitorRewardDistributions, scanWindow, hc]

/-- Claim C8, counterexample to the statement as written.  When the secondary
balance view call fails while `totalDistributed` succeeds, `Promise.all`
rejects and the catch only logs: no stats message at all is published, rather
than a reduced-field one. -/
theorem stats_partial_failure_no_message_cx :
    sendStatsUpdate (.ok 123456789) (.error ()) = none := by decide

/-- Claim C8, amended.  The stats cycle is all-or-nothing: a message exists
exactly when both view calls succeed, and the published message then carries
both fields (total distributed to two decimals, balance to six); if either
view fails, no stats message is published at all. -/
theorem stats_all_or_nothing (t b : Except Unit Nat) (d bal : Nat) :
    (sendStatsUpdate t b).isSome = (t.isOk && b.isOk) ∧
    sendStatsUpdate (.ok d) (.ok bal) =
      some ⟨displayAmount d, displayAmount6 bal⟩ := by
  refine ⟨?_, rfl⟩
  rcases t with u | x <;> rcases b with v | y <;> rfl

/-- Claim C9, confirmed.  With the cursor at 100 and the chain at height 105,
the single qualifying Transfer event at block 103 carrying raw value 500000
with 6 token decimals produces exactly one notification, displaying the
amount `0.50` (500000 / 10^6 rendered to two decimal places), and the cursor
commits to 105. -/
theorem reward_scenario_block103_half_usdc :
    runCycles [⟨CONTRACT_ADDRESS, "0xr9", 500000, 103, "0xc9"⟩] ⟨0, 100⟩
        [⟨.ok 105, false, fun _ => true⟩] =
      (⟨0, 105⟩, [⟨"0xc9", "0xr9", "0.50", true⟩]) := by decide

/-- Claim C10, confirmed.  The stats task reads only the two contract views
and sends a message; it never writes the module state.  Formally: over any
interleaving of scheduled scan and stats tasks, the resulting module state
equals the state of the run with all stats tasks erased — only the reward
scan ever writes `lastProcessedBlock` (or any state field). -/
theorem stats_task_frame (chain : List TransferEvent) (ts : List BotTask)
    (st : BotState) :
    (runTasks chain st ts).1 = (runTasks chain st (ts.filter BotTask.isScan)).1 := by
  induction ts generalizing st with
  | nil => rfl
  | cons t rest ih =>
    cases t with
    | scan cyc => simp [runTasks, List.filter, BotTask.isScan, ih]
    | stats a b => simpa [runTasks, List.filter, BotTask.isScan] using ih st
